import Mathlib

set_option maxRecDepth 4096

/-!
Verification development for the planning-center-integration repository
(src/main.py).  The Python program is shallowly embedded: every function of
the source that the claims touch is translated into an executable Lean
definition.  Network fetches are modelled by an oracle function supplied as a
parameter; a fetch that would raise in Python is an `Except.error` result,
which aborts the run exactly as the uncaught exception does.  Python dicts
are modelled as association lists in insertion order, matching the
iteration-order semantics the source relies on (dict preserves insertion
order; overwriting a key keeps its original position).
-/

/-- Model of a decoded JSON value (the result of json.loads in main.py).
Numbers are modelled as integers: every numeric field the program inspects
(sequence, length) is integral in the API payloads, and the program performs
no arithmetic on numbers.  Python bool is kept separate but is treated as an
int subtype where the source uses isinstance checks. -/
inductive Json where
  | null : Json
  | bool : Bool → Json
  | num : Int → Json
  | str : String → Json
  | arr : List Json → Json
  | obj : List (String × Json) → Json
deriving Repr

/-- First-match lookup in an association list, the model of Python dict
subscript and dict.get for dicts built in insertion order. -/
def lookupVal {β : Type} : List (String × β) → String → Option β
  | [], _ => none
  | (k, v) :: rest, key => if k = key then some v else lookupVal rest key

/-- Model of dict.get(key) on a value known to be a dict: `none` when the
receiver is not an object (the caller checks isinstance first wherever the
source does). -/
def jGet (j : Json) (key : String) : Option Json :=
  match j with
  | Json.obj fields => lookupVal fields key
  | _ => none

/-- Model of dict.get(key) read as a JSON value: Python returns None for a
missing key, which the program treats interchangeably with JSON null. -/
def jGetD (j : Json) (key : String) : Json :=
  (jGet j key).getD Json.null

/-- Whether a JSON value is a dict, the model of isinstance(x, dict). -/
def Json.isObj : Json → Bool
  | Json.obj _ => true
  | _ => false

/-- Model of x.get(key, {}): Python raises AttributeError when the receiver
is not a dict, which aborts the run; a missing key yields the empty dict. -/
def get_with_default (j : Json) (key : String) : Except String Json :=
  match j with
  | Json.obj fields => .ok ((lookupVal fields key).getD (Json.obj []))
  | _ => .error "AttributeError"

/-- Insert-or-overwrite for an association list: an existing key keeps its
position and receives the new value, a new key is appended.  This is exactly
the insertion-order behaviour of assignment into a Python dict. -/
def upsert {β : Type} : List (String × β) → String → β → List (String × β)
  | [], k, v => [(k, v)]
  | (k', v') :: rest, k, v =>
      if k' = k then (k, v) :: rest else (k', v') :: upsert rest k v

/-- Append a value to the list stored at a key, creating the key at the end
when absent: the model of defaultdict(list) indexing followed by append. -/
def append_record {β : Type} : List (String × List β) → String → β → List (String × List β)
  | [], k, r => [(k, [r])]
  | (k', rs) :: rest, k, r =>
      if k' = k then (k', rs ++ [r]) :: rest else (k', rs) :: append_record rest k r

/-! ### Python int() parsing

Model of int(s) for a str argument: surrounding ASCII whitespace is
ignored, one optional sign, then decimal digits optionally separated by
single underscores.  Any other shape raises ValueError, modelled as none. -/

/-- Whitespace characters stripped by Python int() around a numeral. -/
def isPyWs (c : Char) : Bool :=
  c = ' ' ∨ c = '\t' ∨ c = '\n' ∨ c = '\r' ∨ c = '\x0b' ∨ c = '\x0c'

/-- Decimal digit value of a character, none for a non-digit. -/
def digitVal (c : Char) : Option Nat :=
  if '0' ≤ c ∧ c ≤ '9' then some (c.toNat - 48) else none

/-- Digits with optional single underscores between digits, continuing an
already-read most significant part. -/
def pyDigitsAux : List Char → Nat → Option Nat
  | [], acc => some acc
  | '_' :: c :: cs, acc =>
      match digitVal c with
      | some d => pyDigitsAux cs (acc * 10 + d)
      | none => none
  | ['_'], _ => none
  | c :: cs, acc =>
      match digitVal c with
      | some d => pyDigitsAux cs (acc * 10 + d)
      | none => none

/-- Magnitude part of a Python int literal: at least one digit, underscores
allowed only between digits. -/
def pyDigits : List Char → Option Nat
  | [] => none
  | c :: cs =>
      match digitVal c with
      | some d => pyDigitsAux cs d
      | none => none

/-- Model of Python int(s) on a string: some integer on success, none when
int() would raise ValueError. -/
def pyInt (s : String) : Option Int :=
  let core := ((s.data.dropWhile isPyWs).reverse.dropWhile isPyWs).reverse
  match core with
  | '+' :: rest => (pyDigits rest).map (fun n => (n : Int))
  | '-' :: rest => (pyDigits rest).map (fun n => -(n : Int))
  | rest => (pyDigits rest).map (fun n => (n : Int))

/-! ### Calendar arithmetic

Days-from-civil-date conversion and its inverse, operating on the proleptic
Gregorian calendar used by Python datetime, with day 0 = 1970-01-01. -/

/-- Gregorian leap-year test. -/
def isLeap (y : Int) : Bool :=
  (Int.emod y 4 = 0 ∧ Int.emod y 100 ≠ 0) ∨ Int.emod y 400 = 0

/-- Day count of a month (month is 1..12). -/
def daysInMonth (y : Int) (m : Nat) : Nat :=
  if m = 2 then (if isLeap y then 29 else 28)
  else if m = 4 ∨ m = 6 ∨ m = 9 ∨ m = 11 then 30
  else 31

/-- Days since 1970-01-01 of a civil date (proleptic Gregorian). -/
def daysFromCivil (y : Int) (m d : Nat) : Int :=
  let y' : Int := if m ≤ 2 then y - 1 else y
  let era : Int := Int.fdiv y' 400
  let yoe : Int := y' - era * 400
  let mp : Int := if m ≤ 2 then (m : Int) + 9 else (m : Int) - 3
  let doy : Int := Int.fdiv (153 * mp + 2) 5 + (d : Int) - 1
  let doe : Int := yoe * 365 + Int.fdiv yoe 4 - Int.fdiv yoe 100 + doy
  era * 146097 + doe - 719468

/-- Civil date (year, month, day) of a day count since 1970-01-01. -/
def civilFromDays (z0 : Int) : Int × Nat × Nat :=
  let z := z0 + 719468
  let era : Int := Int.fdiv z 146097
  let doe : Int := z - era * 146097
  let yoe : Int := Int.fdiv (doe - Int.fdiv doe 1460 + Int.fdiv doe 36524 - Int.fdiv doe 146096) 365
  let y : Int := yoe + era * 400
  let doy : Int := doe - (365 * yoe + Int.fdiv yoe 4 - Int.fdiv yoe 100)
  let mp : Int := Int.fdiv (5 * doy + 2) 153
  let d : Int := doy - Int.fdiv (153 * mp + 2) 5 + 1
  let m : Int := if mp < 10 then mp + 3 else mp - 9
  (if m ≤ 2 then y + 1 else y, m.toNat, d.toNat)

/-- Day of week of a day count, with 0 = Sunday (1970-01-01 was a Thursday). -/
def dayOfWeek (days : Int) : Nat :=
  (Int.emod (days + 4) 7).toNat

/-- Day of month of the first Sunday of a given month. -/
def firstSundayDom (y : Int) (m : Nat) : Nat :=
  1 + (7 - dayOfWeek (daysFromCivil y m 1)) % 7

/-! ### America/Chicago timezone

Model of the tz database rules for America/Chicago as in force since 2007:
daylight saving runs from 02:00 local standard time on the second Sunday of
March (08:00 UTC) until 02:00 local daylight time on the first Sunday of
November (07:00 UTC); the offset is UTC-5 during daylight saving and UTC-6
otherwise.  The source consults ZoneInfo("America/Chicago"); the historical
pre-2007 rules are not modelled, and no claim involves such dates. -/

/-- UTC second of the spring-forward instant of a year. -/
def dstStartUtc (y : Int) : Int :=
  daysFromCivil y 3 (firstSundayDom y 3 + 7) * 86400 + 8 * 3600

/-- UTC second of the fall-back instant of a year. -/
def dstEndUtc (y : Int) : Int :=
  daysFromCivil y 11 (firstSundayDom y 11) * 86400 + 7 * 3600

/-- Offset from UTC, in seconds, of America/Chicago at a UTC instant. -/
def chicagoOffsetSecs (utc : Int) : Int :=
  let y := (civilFromDays (Int.fdiv utc 86400)).1
  if dstStartUtc y ≤ utc ∧ utc < dstEndUtc y then -18000 else -21600

/-! ### ISO-8601 parsing and formatting

Model of datetime.fromisoformat as it behaves on Python 3.9/3.10 (the
version family the source targets: it works around the missing literal Z
support by replacing Z with +00:00 before parsing): the accepted shape is
YYYY-MM-DD, optionally followed by any single separator character, HH,
optionally :MM, optionally :SS, optionally a fraction of exactly 3 or 6
digits, optionally a +HH:MM or -HH:MM offset.  All fields are range
checked exactly as datetime construction checks them. -/

/-- Aware or naive datetime: civil fields plus an optional UTC offset in
minutes (none models a naive datetime, tzinfo is None). -/
structure PyDateTime where
  year : Int
  month : Nat
  day : Nat
  hour : Nat
  minute : Nat
  second : Nat
  usec : Nat
  offsetMinutes : Option Int
deriving DecidableEq, Repr

/-- Read exactly two decimal digits. -/
def take2Digits : List Char → Option (Nat × List Char)
  | c1 :: c2 :: rest =>
      match digitVal c1, digitVal c2 with
      | some d1, some d2 => some (d1 * 10 + d2, rest)
      | _, _ => none
  | _ => none

/-- Read exactly four decimal digits. -/
def take4Digits : List Char → Option (Nat × List Char)
  | c1 :: c2 :: c3 :: c4 :: rest =>
      match digitVal c1, digitVal c2, digitVal c3, digitVal c4 with
      | some d1, some d2, some d3, some d4 =>
          some (((d1 * 10 + d2) * 10 + d3) * 10 + d4, rest)
      | _, _, _, _ => none
  | _ => none

/-- Read exactly three decimal digits. -/
def take3Digits : List Char → Option (Nat × List Char)
  | c1 :: c2 :: c3 :: rest =>
      match digitVal c1, digitVal c2, digitVal c3 with
      | some d1, some d2, some d3 => some ((d1 * 10 + d2) * 10 + d3, rest)
      | _, _, _ => none
  | _ => none

/-- Read a fraction of exactly six or exactly three digits after the dot,
yielding microseconds. -/
def takeFraction (cs : List Char) : Option (Nat × List Char) :=
  match take3Digits cs with
  | none => none
  | some (ms, rest3) =>
      match take3Digits rest3 with
      | some (lo, rest6) => some (ms * 1000 + lo, rest6)
      | none => some (ms * 1000, rest3)

/-- Read an optional trailing UTC offset (+HH:MM or -HH:MM, range checked
as timezone construction checks it); the input must end afterwards. -/
def takeOffset : List Char → Option (Option Int)
  | [] => some none
  | sign :: rest =>
      if sign = '+' ∨ sign = '-' then
        match take2Digits rest with
        | some (oh, ':' :: rest2) =>
            match take2Digits rest2 with
            | some (om, []) =>
                if oh ≤ 23 ∧ om ≤ 59 then
                  some (some (if sign = '-' then -((oh : Int) * 60 + om) else (oh : Int) * 60 + om))
                else none
            | _ => none
        | _ => none
      else none

/-- Read the time-of-day part HH[:MM[:SS[.frac]]] followed by the optional
offset and end of input. -/
def parseTimePart (cs : List Char) : Option (Nat × Nat × Nat × Nat × Option Int) :=
  match take2Digits cs with
  | none => none
  | some (h, rest) =>
      match rest with
      | ':' :: rest1 =>
          match take2Digits rest1 with
          | none => none
          | some (mi, rest2) =>
              match rest2 with
              | ':' :: rest3 =>
                  match take2Digits rest3 with
                  | none => none
                  | some (s, rest4) =>
                      match rest4 with
                      | '.' :: rest5 =>
                          match takeFraction rest5 with
                          | none => none
                          | some (us, rest6) =>
                              (takeOffset rest6).map (fun off => (h, mi, s, us, off))
                      | _ => (takeOffset rest4).map (fun off => (h, mi, s, 0, off))
              | _ => (takeOffset rest2).map (fun off => (h, mi, 0, 0, off))
      | _ => (takeOffset rest).map (fun off => (h, 0, 0, 0, off))

/-- Model of datetime.fromisoformat (Python 3.9/3.10 accepted grammar with
field range validation; a literal Z marker is rejected, as on those
versions). -/
def fromIsoFormat (s : String) : Option PyDateTime :=
  match take4Digits s.data with
  | none => none
  | some (y, rest) =>
      match rest with
      | '-' :: rest1 =>
          match take2Digits rest1 with
          | none => none
          | some (mo, rest2) =>
              match rest2 with
              | '-' :: rest3 =>
                  match take2Digits rest3 with
                  | none => none
                  | some (d, rest4) =>
                      if 1 ≤ y ∧ 1 ≤ mo ∧ mo ≤ 12 ∧ 1 ≤ d ∧ d ≤ daysInMonth (y : Int) mo then
                        match rest4 with
                        | [] => some ⟨(y : Int), mo, d, 0, 0, 0, 0, none⟩
                        | _ :: timeChars =>
                            match parseTimePart timeChars with
                            | none => none
                            | some (h, mi, sec, us, off) =>
                                if h ≤ 23 ∧ mi ≤ 59 ∧ sec ≤ 59 then
                                  some ⟨(y : Int), mo, d, h, mi, sec, us, off⟩
                                else none
                      else none
              | _ => none
      | _ => none

/-- Seconds since the epoch of the civil fields of a datetime, ignoring its
offset (the wall-clock reading). -/
def wallSecs (dt : PyDateTime) : Int :=
  daysFromCivil dt.year dt.month dt.day * 86400
    + (dt.hour : Int) * 3600 + (dt.minute : Int) * 60 + (dt.second : Int)

/-- Instant of a datetime in microseconds since the epoch; a naive datetime
is read as UTC.  Aware Python datetimes compare by exactly this quantity. -/
def instantUsec (dt : PyDateTime) : Int :=
  (wallSecs dt - (dt.offsetMinutes.getD 0) * 60) * 1000000 + (dt.usec : Int)

/-- Left-pad the decimal form of a number to two digits. -/
def pad2 (n : Nat) : String :=
  if n < 10 then "0" ++ toString n else toString n

/-- Left-pad the decimal form of a number to four digits. -/
def pad4 (n : Nat) : String :=
  if n < 10 then "000" ++ toString n
  else if n < 100 then "00" ++ toString n
  else if n < 1000 then "0" ++ toString n
  else toString n

/-- Left-pad the decimal form of a number to six digits. -/
def pad6 (n : Nat) : String :=
  if n < 1000 then "000" ++ pad3aux n else pad3aux (n / 1000) ++ pad3aux (n % 1000)
where
  /-- Three-digit padding helper. -/
  pad3aux (k : Nat) : String :=
    if k < 10 then "00" ++ toString k
    else if k < 100 then "0" ++ toString k
    else toString k

/-- Render a year as Python datetime.isoformat renders it (four digits for
the representable range). -/
def formatYear (y : Int) : String :=
  if y < 0 then toString y else pad4 y.toNat

/-- Render a UTC offset given in seconds as the +HH:MM form used by
datetime.isoformat for whole-minute offsets. -/
def formatOffset (offSecs : Int) : String :=
  let m : Nat := (if offSecs < 0 then -offSecs else offSecs).toNat / 60
  (if offSecs < 0 then "-" else "+") ++ pad2 (m / 60) ++ ":" ++ pad2 (m % 60)

/-- Render an aware datetime, given as a UTC instant in seconds plus
microseconds and an offset in seconds, as datetime.isoformat renders it. -/
def formatAwareIso (utcSecs : Int) (usec : Nat) (offSecs : Int) : String :=
  let localSecs := utcSecs + offSecs
  let days := Int.fdiv localSecs 86400
  let sod := (Int.emod localSecs 86400).toNat
  let ymd := civilFromDays days
  formatYear ymd.1 ++ "-" ++ pad2 ymd.2.1 ++ "-" ++ pad2 ymd.2.2 ++ "T"
    ++ pad2 (sod / 3600) ++ ":" ++ pad2 (sod % 3600 / 60) ++ ":" ++ pad2 (sod % 60)
    ++ (if usec = 0 then "" else "." ++ pad6 usec)
    ++ formatOffset offSecs

/-- Replace every occurrence of Z in a string by +00:00, the model of
timestamp.replace("Z", "+00:00") in the source. -/
def replaceZ (s : String) : String :=
  ⟨s.data.flatMap (fun c => if c = 'Z' then "+00:00".data else [c])⟩

/-- Model of to_central_iso (src/main.py lines 144-158): parse the
timestamp with Z replaced by +00:00; on failure produce none; a naive
result is assumed UTC; convert to America/Chicago and render via
isoformat. -/
def to_central_iso (timestamp : String) : Option String :=
  match fromIsoFormat (replaceZ timestamp) with
  | none => none
  | some parsed =>
      let utc := wallSecs parsed - parsed.offsetMinutes.getD 0 * 60
      let offs := chicagoOffsetSecs utc
      some (formatAwareIso utc parsed.usec offs)

/-! ### Pipeline state

The source keeps the retained time-slot mapping and the item join mapping
in module-level globals (PLAN_TIMES, PLAN_ITEMS_BY_TIME); the embedding
threads them as an explicit state record, so a stage that writes a global
returns an updated state. -/

/-- Simplified item record appended to a time-slot item list
(src/main.py lines 234-242).  Absent dict keys surface as Python None and
are modelled as Json.null. -/
structure ItemRecord where
  item_id : Json
  item_time_id : String
  title : Json
  sequence : Json
  length : Json
deriving Repr

/-- Output record of the schedule assembler (lines 293-299). -/
structure OutItem where
  title : Json
  sequence : Nat
  length : Json
deriving Repr

/-- The two module-level mappings of the source. -/
structure PipelineState where
  plan_times : List (String × String)
  plan_items_by_time : List (String × List ItemRecord)
deriving Repr

/-! ### Time-slot stage (stash_service_times, lines 161-182) -/

/-- Equality test of a JSON value against the Python string "service"
(attributes.get("time_type") != "service"). -/
def isServiceType (j : Json) : Bool :=
  match j with
  | Json.str s => s = "service"
  | _ => false

/-- Guard chain of the loop body of stash_service_times: yields the
(plan_time_id, starts_at) pair of an entry that is kept, none for an entry
that is silently skipped. -/
def retained_service_entry (entry : Json) : Option (String × String) :=
  let attributes := if entry.isObj then jGet entry "attributes" else none
  match attributes with
  | some (Json.obj attrs) =>
      if isServiceType ((lookupVal attrs "time_type").getD Json.null) then
        match lookupVal attrs "starts_at", jGet entry "id" with
        | some (Json.str starts_at), some (Json.str plan_time_id) =>
            some (plan_time_id, starts_at)
        | _, _ => none
      else none
  | _ => none

/-- One iteration of the stash_service_times loop: a kept entry stores the
converted timestamp, or the original string verbatim when conversion fails
(the source writes `converted or starts_at`, so a falsy empty string would
also fall back). -/
def stash_entry (acc : List (String × String)) (entry : Json) : List (String × String) :=
  match retained_service_entry entry with
  | none => acc
  | some (plan_time_id, starts_at) =>
      let value :=
        match to_central_iso starts_at with
        | some c => if c = "" then starts_at else c
        | none => starts_at
      upsert acc plan_time_id value

/-- Model of stash_service_times (lines 161-182): rebuilds PLAN_TIMES from
the plan-times response.  A non-dict payload makes the dict access raise
(AttributeError), aborting the run; a missing or non-list data field leaves
the mapping empty. -/
def stash_service_times (plan_times : Json) : Except String (List (String × String)) :=
  match plan_times with
  | Json.obj fields =>
      match lookupVal fields "data" with
      | some (Json.arr entries) => .ok (entries.foldl stash_entry [])
      | _ => .ok []
  | _ => .error "AttributeError"

/-! ### Item joining stage (map_items_by_plan_time, lines 185-244) -/

/-- Join filter of line 230: a resolved time-slot ID is dropped when the
retained mapping is non-empty and does not contain it.  With an empty
mapping the test is skipped and every ID is accepted. -/
def time_slot_filtered_out (plan_times : List (String × String)) (plan_time_id : String) : Bool :=
  !plan_times.isEmpty && (lookupVal plan_times plan_time_id).isNone

/-- Model of the owning time-slot extraction (lines 220-227): a chain of
dict.get with empty-dict defaults, then an isinstance(str) check.  A
present but non-dict intermediate value raises AttributeError in the
source, aborting the run. -/
def extract_plan_time_id (detail : Json) : Except String (Option String) := do
  let a ← get_with_default detail "data"
  let b ← get_with_default a "relationships"
  let c ← get_with_default b "plan_time"
  let d ← get_with_default c "data"
  match d with
  | Json.obj fields =>
      match lookupVal fields "id" with
      | some (Json.str s) => .ok (some s)
      | _ => .ok none
  | _ => .ok none

/-- Simplified record built for one accepted item-time reference
(lines 233-241), reading the title, raw sequence and length from the item
attributes (an absent or non-dict attributes value reads as empty). -/
def simplified_record (item : Json) (item_time_id : String) : ItemRecord :=
  let attributes :=
    match jGet item "attributes" with
    | some (Json.obj o) => Json.obj o
    | _ => Json.obj []
  { item_id := jGetD item "id"
    item_time_id := item_time_id
    title := jGetD attributes "title"
    sequence := jGetD attributes "sequence"
    length := jGetD attributes "length" }

/-- Model of the related-resource link extraction of line 208:
item_times_rel.get("links", {}).get("related"), then the isinstance(str)
check of line 209.  A present non-dict links value raises. -/
def related_link_of (item_times_rel_fields : List (String × Json)) : Except String (Option String) :=
  match lookupVal item_times_rel_fields "links" with
  | none => .ok none
  | some (Json.obj linkFields) =>
      match lookupVal linkFields "related" with
      | some (Json.str s) => .ok (some s)
      | _ => .ok none
  | some _ => .error "AttributeError"

/-- Body of the inner reference loop (lines 212-242) for one reference. -/
def process_ref (fetch : String → String → Except String Json)
    (plan_times : List (String × String)) (item : Json) (related_link : String)
    (acc : List (String × List ItemRecord)) (ref : Json) :
    Except String (List (String × List ItemRecord)) :=
  match ref with
  | Json.obj _ =>
      match jGet ref "id" with
      | some (Json.str item_time_id) =>
          match fetch related_link item_time_id with
          | .error e => .error e
          | .ok detail =>
              match extract_plan_time_id detail with
              | .error e => .error e
              | .ok none => .ok acc
              | .ok (some plan_time_id) =>
                  if time_slot_filtered_out plan_times plan_time_id then .ok acc
                  else .ok (append_record acc plan_time_id
                    (simplified_record item item_time_id))
      | _ => .ok acc
  | _ => .ok acc

/-- The inner reference loop over all references of one item. -/
def process_refs (fetch : String → String → Except String Json)
    (plan_times : List (String × String)) (item : Json) (related_link : String) :
    List Json → List (String × List ItemRecord) → Except String (List (String × List ItemRecord))
  | [], acc => .ok acc
  | ref :: rest, acc =>
      match process_ref fetch plan_times item related_link acc ref with
      | .error e => .error e
      | .ok acc' => process_refs fetch plan_times item related_link rest acc'

/-- Body of the outer item loop (lines 195-242) for one item: the guard
chain of silent skips, then the reference fan-out. -/
def process_item (fetch : String → String → Except String Json)
    (plan_times : List (String × String))
    (acc : List (String × List ItemRecord)) (item : Json) :
    Except String (List (String × List ItemRecord)) :=
  match item with
  | Json.obj _ =>
      match jGet item "relationships" with
      | some (Json.obj relFields) =>
          match lookupVal relFields "item_times" with
          | some (Json.obj itrFields) =>
              match lookupVal itrFields "data" with
              | some (Json.arr refs) =>
                  if refs.isEmpty then .ok acc
                  else
                    match related_link_of itrFields with
                    | .error e => .error e
                    | .ok none => .ok acc
                    | .ok (some related_link) =>
                        process_refs fetch plan_times item related_link refs acc
              | _ => .ok acc
          | _ => .ok acc
      | _ => .ok acc
  | _ => .ok acc

/-- The outer item loop. -/
def process_items (fetch : String → String → Except String Json)
    (plan_times : List (String × String)) :
    List Json → List (String × List ItemRecord) → Except String (List (String × List ItemRecord))
  | [], acc => .ok acc
  | item :: rest, acc =>
      match process_item fetch plan_times acc item with
      | .error e => .error e
      | .ok acc' => process_items fetch plan_times rest acc'

/-- Model of map_items_by_plan_time (lines 185-244): rebuilds the join
mapping PLAN_ITEMS_BY_TIME from the plan-items response, reading the
retained time-slot mapping and writing only the join mapping. -/
def map_items_by_plan_time (fetch : String → String → Except String Json)
    (plan_items : Json) (st : PipelineState) : Except String PipelineState :=
  match plan_items with
  | Json.obj fields =>
      match lookupVal fields "data" with
      | some (Json.arr items) =>
          match process_items fetch st.plan_times items [] with
          | .error e => .error e
          | .ok agg => .ok { st with plan_items_by_time := agg }
      | _ => .ok { st with plan_items_by_time := [] }
  | _ => .error "AttributeError"

/-! ### Schedule assembly (lines 247-304) -/

/-- Model of parse_iso_timestamp (lines 247-254): try the value as given,
then with Z replaced by +00:00. -/
def parse_iso_timestamp (value : String) : Option PyDateTime :=
  match fromIsoFormat value with
  | some dt => some dt
  | none => fromIsoFormat (replaceZ value)

/-- Model of str.lstrip("0"): drop every leading zero character. -/
def strip_leading_zeros (s : String) : String :=
  ⟨s.data.dropWhile (fun c => c = '0')⟩

/-- Model of format_time_label (lines 257-262): the parsed timestamp plus a
display label; strftime("%I:%M %p") with the leading zero stripped on
success, the raw string on parse failure. -/
def format_time_label (iso_timestamp : String) : Option PyDateTime × String :=
  match parse_iso_timestamp iso_timestamp with
  | none => (none, iso_timestamp)
  | some dt =>
      let h12 := (dt.hour + 11) % 12 + 1
      let label := strip_leading_zeros (pad2 h12) ++ ":" ++ pad2 dt.minute ++ " "
        ++ (if dt.hour < 12 then "AM" else "PM")
      (some dt, label)

/-- Value of sys.maxsize on the CPython builds the source runs on. -/
def sys_maxsize : Int := 9223372036854775807

/-- Model of _item_sequence_sort_key (lines 265-275).  Python bool is a
subclass of int, so a JSON true/false sequence value passes the
isinstance(int) check and sorts as 1/0. -/
def item_sequence_sort_key (item : ItemRecord) : Nat × Int :=
  match item.sequence with
  | Json.num n => (0, n)
  | Json.bool b => (0, if b then 1 else 0)
  | Json.str s =>
      match pyInt s with
      | some n => (0, n)
      | none => (1, sys_maxsize)
  | _ => (1, sys_maxsize)

/-- Lexicographic order on sort keys, as Python compares the key tuples. -/
def key_le (a b : Nat × Int) : Bool :=
  a.1 < b.1 ∨ (a.1 = b.1 ∧ a.2 ≤ b.2)

/-- Item comparison used by sorted(..., key=_item_sequence_sort_key). -/
def item_le (a b : ItemRecord) : Bool :=
  key_le (item_sequence_sort_key a) (item_sequence_sort_key b)

/-- Insert an element before the first list element it compares
less-or-equal to. -/
def pyInsert {α : Type} (le : α → α → Bool) (a : α) : List α → List α
  | [] => [a]
  | b :: l => if le a b then a :: b :: l else b :: pyInsert le a l

/-- Stable sort into a Bool total preorder.  Python list.sort and sorted()
are also stable, and a stable sort into a given total preorder is unique,
so this insertion sort computes exactly the list Python produces. -/
def pySort {α : Type} (le : α → α → Bool) : List α → List α
  | [] => []
  | b :: l => pyInsert le b (pySort le l)

/-- Model of the enumerate(sorted_items, start=1) rewrite of lines 291-299:
each emitted record carries its 1-based position as its sequence. -/
def renumber_items : Nat → List ItemRecord → List OutItem
  | _, [] => []
  | index, item :: rest =>
      { title := item.title, sequence := index, length := item.length }
        :: renumber_items (index + 1) rest

/-- Comparison of schedule entries by the sort key of line 302:
(entry[0] is None, entry[0], entry[1]).  Aware datetimes compare by
instant; two None timestamps are equal and fall through to the label.  The
embedding orders a naive datetime by its fields read as UTC, which agrees
with Python wherever Python does not raise: mixing naive and aware
datetimes raises TypeError, and the pipeline never produces such a mix
because every stored label either parses to an aware datetime or fails to
parse. -/
def entry_le (a b : Option PyDateTime × String × List OutItem) : Bool :=
  match a.1, b.1 with
  | some d1, some d2 =>
      if instantUsec d1 = instantUsec d2 then a.2.1 ≤ b.2.1
      else instantUsec d1 < instantUsec d2
  | some _, none => true
  | none, some _ => false
  | none, none => a.2.1 ≤ b.2.1

/-- Schedule entries before the final label projection: the loop of
lines 278-300 over PLAN_TIMES in insertion order, keeping slots with at
least one joined item, then the sort of line 302.  The source also filters
the item list to dict members; records in the join mapping are dicts by
construction, so the filter is the identity and is omitted here. -/
def build_schedule_entries (st : PipelineState) :
    List (Option PyDateTime × String × List OutItem) :=
  let unsorted := st.plan_times.filterMap (fun pt =>
    match lookupVal st.plan_items_by_time pt.1 with
    | none => none
    | some items =>
        if items.isEmpty then none
        else
          let labelPair := format_time_label pt.2
          let sorted_items := pySort item_le items
          some (labelPair.1, labelPair.2, renumber_items 1 sorted_items))
  pySort entry_le unsorted

/-- Model of build_plan_schedule (lines 278-304). -/
def build_plan_schedule (st : PipelineState) : List (String × List OutItem) :=
  (build_schedule_entries st).map (fun e => (e.2.1, e.2.2))

/-! ### Credentials, URLs and the driver (lines 12-19, 51-141, 335-354) -/

/-- Fixed base resource path of the source. -/
def API_BASE_URL : String :=
  "https://api.planningcenteronline.com/services/v2/service_types/1069223/plans"

/-- Name of the application-ID environment variable. -/
def APP_ID_ENV : String := "PLANNING_CENTER_APP_ID"

/-- Name of the secret environment variable. -/
def SECRET_ENV : String := "PLANNING_CENTER_SECRET"

/-- Python truthiness of os.environ.get: unset reads as None (falsy) and an
empty string is also falsy. -/
def truthy : Option String → Bool
  | none => false
  | some s => !(s == "")

/-- Model of get_credentials (lines 51-63): reads both variables, and on
any falsy value raises a RuntimeError naming every missing variable. -/
def get_credentials (env : String → Option String) : Except String (String × String) :=
  let app_id := env APP_ID_ENV
  let secret := env SECRET_ENV
  if truthy app_id && truthy secret then
    .ok (app_id.getD "", secret.getD "")
  else
    let missing := (if truthy app_id then [] else [APP_ID_ENV])
      ++ (if truthy secret then [] else [SECRET_ENV])
    .error ("Missing required environment variables: " ++ String.intercalate ", " missing)

/-- Model of build_url (lines 66-73); urlencode percent-escaping is
omitted, the URL being an opaque token handed to the network oracle. -/
def build_url (after_date : String) : String :=
  API_BASE_URL ++ "?per_page=1&filter=after&after=" ++ after_date

/-- Model of build_plan_times_url (lines 76-77). -/
def build_plan_times_url (plan_id : String) : String :=
  API_BASE_URL ++ "/" ++ plan_id ++ "/plan_times"

/-- Model of build_plan_items_url (lines 80-81). -/
def build_plan_items_url (plan_id : String) : String :=
  API_BASE_URL ++ "/" ++ plan_id ++ "/items?include=item_times"

/-- Model of fetch_json (lines 95-113): credentials are read and validated
before any network access, so a credentials failure precedes and prevents
the request.  Transport, HTTP-status and JSON-decode failures are
collapsed into the error result of the network oracle. -/
def fetch_json (env : String → Option String) (net : String → Except String Json)
    (url : String) : Except String Json := do
  let _ ← get_credentials env
  net url

/-- Model of str.rstrip("/"). -/
def rstrip_slashes (s : String) : String :=
  ⟨(s.data.reverse.dropWhile (fun c => c = '/')).reverse⟩

/-- Model of fetch_item_time_detail (lines 139-141). -/
def fetch_item_time_detail (env : String → Option String)
    (net : String → Except String Json) (base_url item_time_id : String) :
    Except String Json :=
  fetch_json env net (rstrip_slashes base_url ++ "/" ++ item_time_id)

/-- Model of str() applied to a scalar JSON value, as used on the plan ID.
Container reprs are abbreviated: the result is only ever interpolated into
a URL handed to the oracle, and no claim involves a non-scalar ID. -/
def py_str : Json → String
  | Json.null => "None"
  | Json.bool b => if b then "True" else "False"
  | Json.num n => toString n
  | Json.str s => s
  | Json.arr _ => "[...]"
  | Json.obj _ => "{...}"

/-- Model of the plan-ID extraction of fetch_plan (lines 120-126):
str(data["data"][0]["id"]) with KeyError, IndexError and TypeError all
mapped to None. -/
def extract_plan_id (data : Json) : Option String :=
  match data with
  | Json.obj fields =>
      match lookupVal fields "data" with
      | some (Json.arr (first :: _)) =>
          match first with
          | Json.obj ff =>
              match lookupVal ff "id" with
              | some v => some (py_str v)
              | none => none
          | _ => none
      | _ => none
  | _ => none

/-- Outcome of one run of main: a fatal condition with its stderr
diagnostic, or the assembled schedule. -/
inductive RunOutcome where
  | fatal (message : String) : RunOutcome
  | success (schedule : List (String × List OutItem)) : RunOutcome
deriving Repr

/-- Process exit status of an outcome (main exits 1 on any fatal
condition, 0 on success). -/
def exit_code : RunOutcome → Nat
  | .fatal _ => 1
  | .success _ => 0

/-- Model of main (lines 335-354) from the validated date argument
onwards: the four fetch-and-join stages inside the try block, then
schedule assembly.  A RuntimeError is caught and printed; an uncaught
AttributeError also ends the process with status 1 and a stderr message,
so both are folded into the fatal outcome. -/
def run_main (env : String → Option String) (net : String → Except String Json)
    (after_date : String) : RunOutcome :=
  match fetch_json env net (build_url after_date) with
  | .error e => .fatal e
  | .ok planData =>
      match extract_plan_id planData with
      | none => .fatal "No plan ID returned; unable to fetch plan times."
      | some plan_id =>
          match fetch_json env net (build_plan_times_url plan_id) with
          | .error e => .fatal e
          | .ok planTimesJson =>
              match stash_service_times planTimesJson with
              | .error e => .fatal e
              | .ok pt =>
                  match fetch_json env net (build_plan_items_url plan_id) with
                  | .error e => .fatal e
                  | .ok planItemsJson =>
                      match map_items_by_plan_time (fetch_item_time_detail env net)
                          planItemsJson { plan_times := pt, plan_items_by_time := [] } with
                      | .error e => .fatal e
                      | .ok st => .success (build_plan_schedule st)

/-! ### Renderers (lines 307-332) -/

/-- Model of the JSON output structure of print_json (lines 307-317). -/
def print_json (schedule : List (String × List OutItem)) : Json :=
  Json.obj [("plan", Json.arr (schedule.map (fun e =>
    Json.obj [("time", Json.str e.1),
      ("items", Json.arr (e.2.map (fun it =>
        Json.obj [("title", it.title), ("sequence", Json.num it.sequence),
          ("length", it.length)])))])))]

/-- Model of str.rstrip() with no argument: trailing whitespace removed. -/
def rstrip_ws (s : String) : String :=
  ⟨(s.data.reverse.dropWhile isPyWs).reverse⟩

/-- One item line of the text renderer (line 330); an emitted sequence is
always an int, and a null length renders as unknown length. -/
def render_item_line (it : OutItem) : String :=
  toString it.sequence ++ ": " ++ py_str it.title ++ " - " ++
    (match it.length with
     | Json.null => "unknown length"
     | j => py_str j ++ " seconds")

/-- Model of the text output of print_text (lines 320-332). -/
def print_text (schedule : List (String × List OutItem)) : String :=
  let lines := schedule.foldl
    (fun acc e => acc ++ [e.1] ++ e.2.map render_item_line ++ [""]) []
  rstrip_ws (String.intercalate "\n" lines)

/-! ### Predicates and concrete inputs referenced by the claim theorems -/

/-- Whether one item-time reference is silently skipped by the inner loop
(lines 212-231): a non-dict reference, a missing or non-string reference
ID, a detail record whose owning time-slot ID is absent or malformed, or a
resolved ID rejected by the join filter.  A failing fetch or an attribute
crash is not a silent skip (it aborts the whole run) and yields false. -/
def ref_skipped (fetch : String → String → Except String Json)
    (plan_times : List (String × String)) (related_link : String) (ref : Json) : Bool :=
  match ref with
  | Json.obj _ =>
      match jGet ref "id" with
      | some (Json.str item_time_id) =>
          match fetch related_link item_time_id with
          | .error _ => false
          | .ok detail =>
              match extract_plan_time_id detail with
              | .error _ => false
              | .ok none => true
              | .ok (some plan_time_id) => time_slot_filtered_out plan_times plan_time_id
      | _ => true
  | _ => true

/-- The C6 condition: the item lacks a resolvable time-slot relationship
(not a dict, no relationships dict, no item_times dict, a missing, non-list
or empty reference list, or no related-resource link string), or every one
of its references is silently skipped.  Cases where the source would raise
instead of skipping (and so abort the run, producing no output at all)
yield false. -/
def item_contributes_nothing (fetch : String → String → Except String Json)
    (plan_times : List (String × String)) (item : Json) : Bool :=
  match item with
  | Json.obj _ =>
      match jGet item "relationships" with
      | some (Json.obj relFields) =>
          match lookupVal relFields "item_times" with
          | some (Json.obj itrFields) =>
              match lookupVal itrFields "data" with
              | some (Json.arr refs) =>
                  if refs.isEmpty then true
                  else
                    match related_link_of itrFields with
                    | .error _ => false
                    | .ok none => true
                    | .ok (some related_link) =>
                        refs.all (ref_skipped fetch plan_times related_link)
              | _ => true
          | _ => true
      | _ => true
  | _ => true

/-- Item template with one item-time reference per given reference ID, all
sharing one related-resource link: the shape lines 195-219 traverse. -/
def item_with_refs (iid attrs : Json) (rids : List String) (link : String) : Json :=
  Json.obj [("id", iid), ("attributes", attrs),
    ("relationships", Json.obj [("item_times", Json.obj [
      ("data", Json.arr (rids.map (fun r => Json.obj [("id", Json.str r)]))),
      ("links", Json.obj [("related", Json.str link)])])])]

/-- Detail record owning time slot T1, as the item-time fetch returns it. -/
def detail_for_t1 : Json :=
  Json.obj [("data", Json.obj [("relationships", Json.obj [("plan_time",
    Json.obj [("data", Json.obj [("id", Json.str "T1")])])])])]

/-- Network oracle answering every item-time detail fetch with
detail_for_t1. -/
def fetch_t1 : String → String → Except String Json :=
  fun _ _ => .ok detail_for_t1

/-- Plan-items payload with a single item holding one reference R1. -/
def c1_items : Json :=
  Json.obj [("data", Json.arr [item_with_refs (Json.str "I1")
    (Json.obj [("title", Json.str "Opener"), ("sequence", Json.num 1),
      ("length", Json.num 300)]) ["R1"] "http://x/"])]

/-- The simplified record the join produces for that item. -/
def c1_record : ItemRecord :=
  simplified_record (item_with_refs (Json.str "I1")
    (Json.obj [("title", Json.str "Opener"), ("sequence", Json.num 1),
      ("length", Json.num 300)]) ["R1"] "http://x/") "R1"

/-- Service plan-time entry whose timestamp does not parse. -/
def c7_entry : Json :=
  Json.obj [("id", Json.str "T9"), ("attributes", Json.obj [
    ("time_type", Json.str "service"), ("starts_at", Json.str "not-a-time")])]

/-- Whether a string occurs inside another (used to state that a
diagnostic names a variable). -/
def mentions (hay needle : String) : Bool :=
  decide (List.IsInfix needle.data hay.data)

/-! ### Generic facts about the stable insertion sort -/

theorem pyInsert_perm {α : Type} (le : α → α → Bool) (a : α) :
    ∀ l : List α, (pyInsert le a l).Perm (a :: l)
  | [] => List.Perm.refl _
  | b :: t => by
      simp only [pyInsert]
      split
      · exact List.Perm.refl _
      · exact ((pyInsert_perm le a t).cons b).trans (List.Perm.swap a b t)

theorem pySort_perm {α : Type} (le : α → α → Bool) :
    ∀ l : List α, (pySort le l).Perm l
  | [] => List.Perm.refl _
  | b :: t => (pyInsert_perm le b (pySort le t)).trans ((pySort_perm le t).cons b)

theorem mem_pyInsert {α : Type} (le : α → α → Bool) (a x : α) (l : List α) :
    x ∈ pyInsert le a l ↔ x = a ∨ x ∈ l := by
  rw [(pyInsert_perm le a l).mem_iff, List.mem_cons]

theorem pairwise_pyInsert {α : Type} (le : α → α → Bool)
    (htot : ∀ a b, le a b = true ∨ le b a = true)
    (htrans : ∀ a b c, le a b = true → le b c = true → le a c = true)
    (a : α) : ∀ l : List α, l.Pairwise (fun x y => le x y = true) →
      (pyInsert le a l).Pairwise (fun x y => le x y = true)
  | [], _ => by simp [pyInsert]
  | b :: t, hp => by
      rcases List.pairwise_cons.mp hp with ⟨hb, ht⟩
      simp only [pyInsert]
      split
      · rename_i hab
        refine List.pairwise_cons.mpr ⟨?_, hp⟩
        intro y hy
        rcases List.mem_cons.mp hy with hyb | hyt
        · exact hyb ▸ hab
        · exact htrans a b y hab (hb y hyt)
      · rename_i hab
        have hba : le b a = true := by
          rcases htot a b with h | h
          · exact absurd h hab
          · exact h
        refine List.pairwise_cons.mpr ⟨?_, pairwise_pyInsert le htot htrans a t ht⟩
        intro y hy
        rcases (mem_pyInsert le a y t).mp hy with hya | hyt
        · exact hya ▸ hba
        · exact hb y hyt

theorem pairwise_pySort {α : Type} (le : α → α → Bool)
    (htot : ∀ a b, le a b = true ∨ le b a = true)
    (htrans : ∀ a b c, le a b = true → le b c = true → le a c = true) :
    ∀ l : List α, (pySort le l).Pairwise (fun x y => le x y = true)
  | [] => List.Pairwise.nil
  | b :: t => pairwise_pyInsert le htot htrans b (pySort le t)
      (pairwise_pySort le htot htrans t)

theorem filter_pyInsert_pos {α : Type} (le : α → α → Bool) (p : α → Bool) (a : α)
    (hpa : p a = true) (h : ∀ y, p y = true → le a y = true) :
    ∀ l : List α, (pyInsert le a l).filter p = a :: l.filter p
  | [] => by simp [pyInsert, hpa]
  | b :: t => by
      simp only [pyInsert]
      split
      · simp [List.filter_cons, hpa]
      · rename_i hab
        have hpb : p b = false := by
          cases hpb' : p b
          · rfl
          · exact absurd (h b hpb') hab
        simp [List.filter_cons, hpb, filter_pyInsert_pos le p a hpa h t]

theorem filter_pyInsert_neg {α : Type} (le : α → α → Bool) (p : α → Bool) (a : α)
    (hpa : p a = false) :
    ∀ l : List α, (pyInsert le a l).filter p = l.filter p
  | [] => by simp [pyInsert, hpa]
  | b :: t => by
      simp only [pyInsert]
      split
      · simp [List.filter_cons, hpa]
      · simp [List.filter_cons, filter_pyInsert_neg le p a hpa t]

theorem filter_pySort {α : Type} (le : α → α → Bool) (p : α → Bool)
    (hties : ∀ a b, p a = true → p b = true → le a b = true) :
    ∀ l : List α, (pySort le l).filter p = l.filter p
  | [] => rfl
  | a :: t => by
      simp only [pySort]
      cases hpa : p a
      · rw [filter_pyInsert_neg le p a hpa, filter_pySort le p hties t]
        simp [List.filter_cons, hpa]
      · rw [filter_pyInsert_pos le p a hpa (fun y hy => hties a y hpa hy),
          filter_pySort le p hties t]
        simp [List.filter_cons, hpa]

/-! ### The item and entry comparisons are total preorders -/

theorem key_le_total (a b : Nat × Int) : key_le a b = true ∨ key_le b a = true := by
  simp only [key_le, decide_eq_true_eq]
  omega

theorem key_le_trans (a b c : Nat × Int) (h1 : key_le a b = true) (h2 : key_le b c = true) :
    key_le a c = true := by
  simp only [key_le, decide_eq_true_eq] at h1 h2 ⊢
  omega

theorem item_le_total (a b : ItemRecord) : item_le a b = true ∨ item_le b a = true :=
  key_le_total _ _

theorem item_le_trans (a b c : ItemRecord) (h1 : item_le a b = true)
    (h2 : item_le b c = true) : item_le a c = true :=
  key_le_trans _ _ _ h1 h2

theorem entry_le_total (a b : Option PyDateTime × String × List OutItem) :
    entry_le a b = true ∨ entry_le b a = true := by
  rcases a with ⟨da, la, ia⟩
  rcases b with ⟨db, lb, ib⟩
  rcases da with _ | d1 <;> rcases db with _ | d2
  · simp only [entry_le]
    rcases le_total la lb with h | h
    · left; simpa using h
    · right; simpa using h
  · right; simp [entry_le]
  · left; simp [entry_le]
  · simp only [entry_le]
    by_cases h : instantUsec d1 = instantUsec d2
    · rw [if_pos h, if_pos h.symm]
      rcases le_total la lb with h' | h'
      · left; simpa using h'
      · right; simpa using h'
    · rw [if_neg h, if_neg (Ne.symm h)]
      simp only [decide_eq_true_eq]
      omega

theorem entry_le_trans (a b c : Option PyDateTime × String × List OutItem)
    (h1 : entry_le a b = true) (h2 : entry_le b c = true) : entry_le a c = true := by
  rcases a with ⟨da, la, ia⟩
  rcases b with ⟨db, lb, ib⟩
  rcases c with ⟨dc, lc, ic⟩
  rcases db with _ | d2
  · rcases dc with _ | d3
    · rcases da with _ | d1
      · simp only [entry_le] at h1 h2 ⊢
        simp only [decide_eq_true_eq] at h1 h2 ⊢
        exact le_trans h1 h2
      · simp [entry_le]
    · simp only [entry_le] at h2
      exact absurd h2 (by simp)
  · rcases da with _ | d1
    · simp only [entry_le] at h1
      exact absurd h1 (by simp)
    · rcases dc with _ | d3
      · simp [entry_le]
      · simp only [entry_le] at h1 h2 ⊢
        by_cases hab : instantUsec d1 = instantUsec d2 <;>
          by_cases hbc : instantUsec d2 = instantUsec d3
        · rw [if_pos hab] at h1
          rw [if_pos hbc] at h2
          rw [if_pos (hab.trans hbc)]
          simp only [decide_eq_true_eq] at h1 h2 ⊢
          exact le_trans h1 h2
        · rw [if_pos hab] at h1
          rw [if_neg hbc] at h2
          simp only [decide_eq_true_eq] at h2
          rw [if_neg (show instantUsec d1 ≠ instantUsec d3 by omega)]
          simp only [decide_eq_true_eq]
          omega
        · rw [if_neg hab] at h1
          rw [if_pos hbc] at h2
          simp only [decide_eq_true_eq] at h1
          rw [if_neg (show instantUsec d1 ≠ instantUsec d3 by omega)]
          simp only [decide_eq_true_eq]
          omega
        · rw [if_neg hab] at h1
          rw [if_neg hbc] at h2
          simp only [decide_eq_true_eq] at h1 h2
          rw [if_neg (show instantUsec d1 ≠ instantUsec d3 by omega)]
          simp only [decide_eq_true_eq]
          omega

theorem key_le_refl (k : Nat × Int) : key_le k k = true := by
  simp [key_le]

/-- An item whose key has first component 1 has exactly the undefined
sentinel key (1, sys.maxsize). -/
theorem key_of_undefined (it : ItemRecord) (h : (item_sequence_sort_key it).1 = 1) :
    item_sequence_sort_key it = (1, sys_maxsize) := by
  unfold item_sequence_sort_key at h ⊢
  rcases hs : it.sequence with _ | b | n | s | l | o
  · rfl
  · rw [hs] at h; simp at h
  · rw [hs] at h; simp at h
  · rw [hs] at h
    cases hp : pyInt s
    · simp [hp]
    · simp [hp] at h
  · rfl
  · rfl

/-! ### Claim C2 -/

/-- C2: for every time slot item list, the sort performed by
build_plan_schedule (sorted with _item_sequence_sort_key) is stable and
total: the result is a permutation of the input ordered by the key, so
items with an integer or int-parseable string sequence sort numerically
ascending by that value and precede every item with an absent or
unparseable sequence (whose key is (1, sys.maxsize), never ≤ a defined
key (0, n)); the filter identities state stability: the undefined-key
items, and more generally the items of any fixed key, appear in exactly
their arrival order. -/
theorem c2_item_sorting_stable_total (items : List ItemRecord) :
    (pySort item_le items).Perm items ∧
    (pySort item_le items).Pairwise (fun a b => item_le a b = true) ∧
    (pySort item_le items).filter (fun it => decide ((item_sequence_sort_key it).1 = 1))
      = items.filter (fun it => decide ((item_sequence_sort_key it).1 = 1)) ∧
    ∀ k : Nat × Int,
      (pySort item_le items).filter (fun it => decide (item_sequence_sort_key it = k))
        = items.filter (fun it => decide (item_sequence_sort_key it = k)) := by
  refine ⟨pySort_perm item_le items,
    pairwise_pySort item_le item_le_total item_le_trans items, ?_, ?_⟩
  · apply filter_pySort
    intro a b ha hb
    simp only [decide_eq_true_eq] at ha hb
    unfold item_le
    rw [key_of_undefined a ha, key_of_undefined b hb]
    exact key_le_refl _
  · intro k
    apply filter_pySort
    intro a b ha hb
    simp only [decide_eq_true_eq] at ha hb
    unfold item_le
    rw [ha, hb]
    exact key_le_refl _

/-! ### Claim C3 -/

theorem renumber_items_length : ∀ (i : Nat) (l : List ItemRecord),
    (renumber_items i l).length = l.length
  | _, [] => rfl
  | i, it :: rest => by simp [renumber_items, renumber_items_length (i + 1) rest]

theorem renumber_items_map_seq : ∀ (i : Nat) (l : List ItemRecord),
    (renumber_items i l).map (fun it => it.sequence) = List.range' i l.length
  | _, [] => rfl
  | i, it :: rest => by
      simp [renumber_items, renumber_items_map_seq (i + 1) rest, List.range'_succ]

/-- C3: every time slot of the final schedule carries item sequence fields
that are exactly 1, 2, ..., N in order (List.range' 1 N), independent of
the source sequence values, which never reach the output record. -/
theorem c3_dense_renumbering (st : PipelineState) (label : String) (out : List OutItem)
    (h : (label, out) ∈ build_plan_schedule st) :
    out.map (fun it => it.sequence) = List.range' 1 out.length := by
  unfold build_plan_schedule at h
  rcases List.mem_map.mp h with ⟨e, he, hproj⟩
  unfold build_schedule_entries at he
  have he' := (pySort_perm entry_le _).mem_iff.mp he
  rcases List.mem_filterMap.mp he' with ⟨pt, hpt, hsome⟩
  rcases hl : lookupVal st.plan_items_by_time pt.1 with _ | items
  · rw [hl] at hsome
    simp at hsome
  · rw [hl] at hsome
    by_cases hemp : items.isEmpty
    · simp [hemp] at hsome
    · simp only [hemp, Bool.false_eq_true, if_false, Option.some.injEq] at hsome
      have hout : out = renumber_items 1 (pySort item_le items) := by
        rw [← hsome] at hproj
        simpa using (congrArg Prod.snd hproj).symm
      rw [hout, renumber_items_map_seq, renumber_items_length]


/-! ### Claim C4 -/

/-- C4: the assembled schedule entries are pairwise ordered: two parseable
timestamps appear in ascending instant order with the label breaking exact
ties; a parseable entry never follows an unparseable one (so the
unparseable entries form a block at the end); and within that block the
entries are ordered by the literal label string. -/
theorem c4_schedule_entry_order (st : PipelineState) :
    (build_schedule_entries st).Pairwise (fun a b =>
      match a.1, b.1 with
      | some d1, some d2 => instantUsec d1 < instantUsec d2 ∨
          (instantUsec d1 = instantUsec d2 ∧ a.2.1 ≤ b.2.1)
      | some _, none => True
      | none, some _ => False
      | none, none => a.2.1 ≤ b.2.1) := by
  have hp : (build_schedule_entries st).Pairwise (fun a b => entry_le a b = true) := by
    unfold build_schedule_entries
    exact pairwise_pySort entry_le entry_le_total entry_le_trans _
  refine hp.imp ?_
  intro a b h
  rcases a with ⟨da, la, ia⟩
  rcases b with ⟨db, lb, ib⟩
  rcases da with _ | d1 <;> rcases db with _ | d2 <;> simp only [entry_le] at h ⊢
  · simpa using h
  · simp at h
  · by_cases heq : instantUsec d1 = instantUsec d2
    · rw [if_pos heq] at h
      right
      exact ⟨heq, by simpa using h⟩
    · rw [if_neg heq] at h
      left
      simpa using h

/-! ### Claim C9 -/

/-- C9: the item-joining stage writes only the join mapping: whenever
map_items_by_plan_time completes, the retained time-slot mapping of the
resulting state is exactly the one it was given.  The later stages read
the state without producing one (build_plan_schedule and the renderers are
pure functions of the state), so the mapping built by the time-slot stage
is never modified afterwards. -/
theorem c9_plan_times_immutable (fetch : String → String → Except String Json)
    (plan_items : Json) (st st' : PipelineState)
    (h : map_items_by_plan_time fetch plan_items st = .ok st') :
    st'.plan_times = st.plan_times := by
  unfold map_items_by_plan_time at h
  split at h
  · split at h
    · split at h
      · exact absurd h (by simp)
      · simp only [Except.ok.injEq] at h
        rw [← h]
    · simp only [Except.ok.injEq] at h
      rw [← h]
  · exact absurd h (by simp)

/-! ### Claim C5 -/

/-- C5: normalizing the timestamp 2024-01-07T15:00:00Z, which carries an
explicit UTC offset, yields 2024-01-07T09:00:00-06:00: the equivalent
wall-clock time in America/Chicago, which observes standard time (UTC-6)
on that January date, rendered in ISO-8601 form with offset. -/
theorem c5_utc_to_central :
    to_central_iso "2024-01-07T15:00:00Z" = some "2024-01-07T09:00:00-06:00" := by
  rfl

/-! ### Claim C1 -/

/-- C1 (counterexample): with no service time slots retained, the single
item resolving to slot T1 passes the skipped filter and enters the join
mapping, yet build_plan_schedule emits no entry at all, contradicting the
claim that such an accepted slot with a joined item appears in the final
Schedule output. -/
theorem c1_counterexample :
    map_items_by_plan_time fetch_t1 c1_items { plan_times := [], plan_items_by_time := [] }
      = .ok { plan_times := [], plan_items_by_time := [("T1", [c1_record])] } ∧
    build_plan_schedule { plan_times := [], plan_items_by_time := [("T1", [c1_record])] }
      = [] := by
  exact ⟨rfl, rfl⟩

/-- C1 (amended): when the retained service mapping is empty the join
filter is skipped, so no resolved time-slot ID is ever filtered out and
accepted references enter the join mapping; however, such time slots do
not appear in the final Schedule output: schedule assembly iterates over
the retained mapping only, so with an empty mapping the output is empty. -/
theorem c1_empty_mapping_behaviour :
    (∀ plan_time_id : String, time_slot_filtered_out [] plan_time_id = false) ∧
    (∀ st : PipelineState, st.plan_times = [] → build_plan_schedule st = []) := by
  constructor
  · intro plan_time_id
    rfl
  · intro st h
    unfold build_plan_schedule build_schedule_entries
    rw [h]
    rfl

/-- Closed instance of the amended C1 statement. -/
theorem c1_empty_mapping_behaviour_witness :
    time_slot_filtered_out [] "T1" = false ∧
    build_plan_schedule { plan_times := [], plan_items_by_time := [("T1", [c1_record])] }
      = [] :=
  ⟨c1_empty_mapping_behaviour.1 "T1", c1_empty_mapping_behaviour.2 _ rfl⟩

/-! ### Claim C7 -/

theorem lookup_upsert_self {β : Type} :
    ∀ (m : List (String × β)) (k : String) (v : β),
      lookupVal (upsert m k v) k = some v
  | [], k, v => by simp [upsert, lookupVal]
  | (k', v') :: rest, k, v => by
      by_cases h : k' = k
      · simp [upsert, h, lookupVal]
      · simp [upsert, h, lookupVal, lookup_upsert_self rest k v]

theorem lookup_upsert_ne {β : Type} :
    ∀ (m : List (String × β)) (k k₀ : String) (v : β), k ≠ k₀ →
      lookupVal (upsert m k v) k₀ = lookupVal m k₀
  | [], k, k₀, v, h => by simp [upsert, lookupVal, h]
  | (k', v') :: rest, k, k₀, v, h => by
      by_cases hk : k' = k
      · subst hk
        simp [upsert, lookupVal, h]
      · by_cases hk0 : k' = k₀
        · subst hk0
          simp [upsert, hk, lookupVal]
        · simp [upsert, hk, lookupVal, hk0, lookup_upsert_ne rest k k₀ v h]

/-- Entries none of which write a given slot ID leave its binding
untouched through the stash fold. -/
theorem stash_fold_preserves (tid : String) :
    ∀ (l : List Json) (acc : List (String × String)),
      (∀ e' ∈ l, ∀ p : String × String, retained_service_entry e' = some p → p.1 ≠ tid) →
      lookupVal (l.foldl stash_entry acc) tid = lookupVal acc tid
  | [], _, _ => rfl
  | e :: rest, acc, h => by
      have h1 := h e (List.mem_cons_self e rest)
      have hrest : ∀ e' ∈ rest, ∀ p : String × String,
          retained_service_entry e' = some p → p.1 ≠ tid :=
        fun e' he' => h e' (List.mem_cons_of_mem _ he')
      simp only [List.foldl_cons]
      rw [stash_fold_preserves tid rest (stash_entry acc e) hrest]
      unfold stash_entry
      cases hr : retained_service_entry e with
      | none => rfl
      | some p =>
          rcases p with ⟨ptid, sa⟩
          exact lookup_upsert_ne acc ptid tid _ (h1 (ptid, sa) hr)

/-- C7: a retained service entry whose start timestamp fails to normalize
(to_central_iso yields none) has its original timestamp string stored
verbatim in the TimeSlot mapping under its slot ID (provided no later
retained entry overwrites that ID). -/
theorem c7_parse_failure_fallback (l1 l2 : List Json) (e : Json) (tid s : String)
    (m : List (String × String))
    (hret : retained_service_entry e = some (tid, s))
    (hfail : to_central_iso s = none)
    (hlater : ∀ e' ∈ l2, ∀ p : String × String,
      retained_service_entry e' = some p → p.1 ≠ tid)
    (hstash : stash_service_times (Json.obj [("data", Json.arr (l1 ++ e :: l2))]) = .ok m) :
    lookupVal m tid = some s := by
  have hm : m = List.foldl stash_entry (stash_entry (List.foldl stash_entry [] l1) e) l2 := by
    unfold stash_service_times at hstash
    simp [lookupVal] at hstash
    exact hstash.symm
  rw [hm, stash_fold_preserves tid l2 _ hlater]
  unfold stash_entry
  simp only [hret, hfail]
  exact lookup_upsert_self _ tid s

/-- Closed instance of C7 on a one-entry payload with an unparseable
timestamp. -/
theorem c7_witness :
    retained_service_entry c7_entry = some ("T9", "not-a-time") ∧
    to_central_iso "not-a-time" = none ∧
    lookupVal [("T9", "not-a-time")] "T9" = some "not-a-time" := by
  refine ⟨rfl, rfl, ?_⟩
  exact c7_parse_failure_fallback [] [] c7_entry "T9" "not-a-time"
    [("T9", "not-a-time")] rfl rfl (by simp) rfl

/-! ### Claim C6 -/

theorem process_ref_skip (fetch : String → String → Except String Json)
    (plan_times : List (String × String)) (item : Json) (related_link : String)
    (acc : List (String × List ItemRecord)) (ref : Json)
    (h : ref_skipped fetch plan_times related_link ref = true) :
    process_ref fetch plan_times item related_link acc ref = .ok acc := by
  unfold ref_skipped at h
  unfold process_ref
  iterate 6 (all_goals try split at h)
  all_goals simp_all

theorem process_refs_skip (fetch : String → String → Except String Json)
    (plan_times : List (String × String)) (item : Json) (related_link : String) :
    ∀ (refs : List Json) (acc : List (String × List ItemRecord)),
      (∀ r ∈ refs, ref_skipped fetch plan_times related_link r = true) →
      process_refs fetch plan_times item related_link refs acc = .ok acc
  | [], _, _ => rfl
  | r :: rest, acc, h => by
      rw [process_refs,
        process_ref_skip fetch plan_times item related_link acc r
          (h r (List.mem_cons_self r rest))]
      exact process_refs_skip fetch plan_times item related_link rest acc
        (fun r' hr' => h r' (List.mem_cons_of_mem _ hr'))

theorem process_item_skip (fetch : String → String → Except String Json)
    (plan_times : List (String × String))
    (acc : List (String × List ItemRecord)) (item : Json)
    (h : item_contributes_nothing fetch plan_times item = true) :
    process_item fetch plan_times acc item = .ok acc := by
  unfold item_contributes_nothing at h
  unfold process_item
  iterate 8 (all_goals try split at h)
  all_goals try simp_all
  all_goals exact process_refs_skip fetch plan_times _ _ _ acc h

theorem process_items_skip_middle (fetch : String → String → Except String Json)
    (plan_times : List (String × String)) (item : Json)
    (h : item_contributes_nothing fetch plan_times item = true) :
    ∀ (l1 l2 : List Json) (acc : List (String × List ItemRecord)),
      process_items fetch plan_times (l1 ++ item :: l2) acc
        = process_items fetch plan_times (l1 ++ l2) acc
  | [], l2, acc => by
      simp only [List.nil_append]
      rw [process_items, process_item_skip fetch plan_times acc item h]
  | a :: l1, l2, acc => by
      simp only [List.cons_append]
      simp only [process_items]
      rcases hp : process_item fetch plan_times acc a with e | acc'
      · rfl
      · exact process_items_skip_middle fetch plan_times item h l1 l2 acc'

/-- C6: an agenda item that lacks a resolvable time-slot relationship, or
whose references are all silently skipped (absent or malformed owning ID,
or resolved slot filtered out), contributes nothing: the join stage
computes the same result with the item as without it, so no record for the
item reaches any Schedule entry of the output.  The remaining cases of the
claim are fetch failures and attribute crashes, which abort the run before
any output exists. -/
theorem c6_unresolvable_item_invisible (fetch : String → String → Except String Json)
    (st : PipelineState) (l1 l2 : List Json) (item : Json)
    (h : item_contributes_nothing fetch st.plan_times item = true) :
    map_items_by_plan_time fetch (Json.obj [("data", Json.arr (l1 ++ item :: l2))]) st
      = map_items_by_plan_time fetch (Json.obj [("data", Json.arr (l1 ++ l2))]) st := by
  unfold map_items_by_plan_time
  simp only [lookupVal, if_pos]
  rw [process_items_skip_middle fetch st.plan_times item h l1 l2 []]

/-- Closed instance of C6: an item with no relationships dict is invisible
to the join. -/
theorem c6_witness :
    item_contributes_nothing fetch_t1 [("T1", "t")] (Json.obj [("id", Json.str "IX")]) = true ∧
    map_items_by_plan_time fetch_t1
        (Json.obj [("data", Json.arr [Json.obj [("id", Json.str "IX")]])])
        { plan_times := [("T1", "t")], plan_items_by_time := [] }
      = map_items_by_plan_time fetch_t1 (Json.obj [("data", Json.arr [])])
        { plan_times := [("T1", "t")], plan_items_by_time := [] } := by
  refine ⟨rfl, ?_⟩
  exact c6_unresolvable_item_invisible fetch_t1
    { plan_times := [("T1", "t")], plan_items_by_time := [] } [] []
    (Json.obj [("id", Json.str "IX")]) rfl

/-! ### Claim C10 -/

theorem append_record_existing (l : List ItemRecord) (k : String) (r : ItemRecord) :
    append_record [(k, l)] k r = [(k, l ++ [r])] := by
  simp [append_record]

theorem fold_append_record (p : String) (rec : String → ItemRecord) :
    ∀ (rids : List String) (l : List ItemRecord),
      rids.foldl (fun a rid => append_record a p (rec rid)) [(p, l)]
        = [(p, l ++ rids.map rec)]
  | [], l => by simp
  | rid :: rest, l => by
      simp only [List.foldl_cons, append_record_existing]
      rw [fold_append_record p rec rest (l ++ [rec rid])]
      simp

theorem fold_append_record_nil (p : String) (rec : String → ItemRecord) :
    ∀ rids : List String, rids ≠ [] →
      rids.foldl (fun a rid => append_record a p (rec rid)) [] = [(p, rids.map rec)]
  | [], h => absurd rfl h
  | rid :: rest, _ => by
      simp only [List.foldl_cons]
      have h0 : append_record ([] : List (String × List ItemRecord)) p (rec rid)
          = [(p, [rec rid])] := rfl
      rw [h0, fold_append_record p rec rest [rec rid]]
      simp

/-- References that all fetch successfully and resolve to one kept slot
each append one simplified record for that slot, in reference order. -/
theorem process_refs_all_resolve (fetch : String → String → Except String Json)
    (plan_times : List (String × String)) (item : Json) (link p : String)
    (hkept : time_slot_filtered_out plan_times p = false) :
    ∀ (rids : List String) (acc : List (String × List ItemRecord)),
      (∀ rid ∈ rids, ∃ d, fetch link rid = .ok d ∧
        extract_plan_time_id d = .ok (some p)) →
      process_refs fetch plan_times item link
          (rids.map (fun r => Json.obj [("id", Json.str r)])) acc
        = .ok (rids.foldl (fun a rid =>
            append_record a p (simplified_record item rid)) acc)
  | [], _, _ => rfl
  | rid :: rest, acc, h => by
      obtain ⟨d, hf, he⟩ := h rid (List.mem_cons_self rid rest)
      have href : process_ref fetch plan_times item link acc
          (Json.obj [("id", Json.str rid)])
          = .ok (append_record acc p (simplified_record item rid)) := by
        unfold process_ref
        simp [jGet, lookupVal, hf, he, hkept]
      simp only [List.map_cons]
      rw [process_refs, href, List.foldl_cons]
      exact process_refs_all_resolve fetch plan_times item link p hkept rest
        (append_record acc p (simplified_record item rid))
        (fun r hr => h r (List.mem_cons_of_mem _ hr))

/-- C10: a single agenda item holding several item-time references that
all resolve to one retained time slot contributes one simplified record
per reference to that slot, so the same item appears several times in the
slot list (duplicates within one slot are kept). -/
theorem c10_duplicate_references_kept (fetch : String → String → Except String Json)
    (st : PipelineState) (iid attrs : Json) (rids : List String) (link p : String)
    (hne : rids ≠ [])
    (hresolve : ∀ rid ∈ rids, ∃ d, fetch link rid = .ok d ∧
      extract_plan_time_id d = .ok (some p))
    (hkept : time_slot_filtered_out st.plan_times p = false) :
    map_items_by_plan_time fetch
        (Json.obj [("data", Json.arr [item_with_refs iid attrs rids link])]) st
      = .ok { st with plan_items_by_time :=
          [(p, rids.map (fun rid =>
            simplified_record (item_with_refs iid attrs rids link) rid))] } := by
  have hemp : (rids.map (fun r => Json.obj [("id", Json.str r)])).isEmpty = false := by
    cases rids with
    | nil => exact absurd rfl hne
    | cons a t => rfl
  have hitem : process_item fetch st.plan_times []
      (item_with_refs iid attrs rids link)
      = .ok [(p, rids.map (fun rid =>
          simplified_record (item_with_refs iid attrs rids link) rid))] := by
    unfold process_item
    simp only [item_with_refs, jGet, lookupVal]
    simp [related_link_of, lookupVal, hemp,
      process_refs_all_resolve fetch st.plan_times _ link p hkept rids [] hresolve,
      fold_append_record_nil p _ rids hne]
  unfold map_items_by_plan_time
  simp only [lookupVal, if_pos]
  rw [process_items, hitem]
  rfl

/-- Closed instance of C10: two references of one item resolving to the
retained slot T1 yield two records in the T1 list. -/
theorem c10_witness :
    map_items_by_plan_time fetch_t1
        (Json.obj [("data", Json.arr
          [item_with_refs (Json.str "I1") Json.null ["R1", "R2"] "u"])])
        { plan_times := [("T1", "t")], plan_items_by_time := [] }
      = .ok { plan_times := [("T1", "t")], plan_items_by_time :=
          [("T1",
            [simplified_record (item_with_refs (Json.str "I1") Json.null ["R1", "R2"] "u") "R1",
             simplified_record (item_with_refs (Json.str "I1") Json.null ["R1", "R2"] "u") "R2"])] } := by
  exact c10_duplicate_references_kept fetch_t1
    { plan_times := [("T1", "t")], plan_items_by_time := [] }
    (Json.str "I1") Json.null ["R1", "R2"] "u" "T1" (by simp)
    (fun rid _ => ⟨detail_for_t1, rfl, rfl⟩) rfl

/-! ### Claim C8 -/

/-- A credentials failure short-circuits the very first fetch, so main
stops with that diagnostic no matter what the network would answer. -/
theorem run_main_of_credentials_error (env : String → Option String)
    (net : String → Except String Json) (after_date msg : String)
    (h : get_credentials env = .error msg) :
    run_main env net after_date = .fatal msg := by
  unfold run_main
  have hf : fetch_json env net (build_url after_date) = .error msg := by
    unfold fetch_json
    rw [h]
    rfl
  rw [hf]

/-- C8: with one or both credential variables unset, the run ends fatally
with exit status 1; the diagnostic names every missing variable (both
names when both are unset); and the outcome is identical under every
network oracle, which is the observational statement that no network
request is attempted (credentials are validated before any request is
built or sent). -/
theorem c8_missing_credentials (env : String → Option String)
    (h : env APP_ID_ENV = none ∨ env SECRET_ENV = none)
    (net net' : String → Except String Json) (after_date : String) :
    ∃ msg : String,
      run_main env net after_date = .fatal msg ∧
      exit_code (run_main env net after_date) = 1 ∧
      (env APP_ID_ENV = none → mentions msg APP_ID_ENV = true) ∧
      (env SECRET_ENV = none → mentions msg SECRET_ENV = true) ∧
      run_main env net after_date = run_main env net' after_date := by
  cases ha : truthy (env APP_ID_ENV) <;> cases hb : truthy (env SECRET_ENV)
  · refine ⟨"Missing required environment variables: PLANNING_CENTER_APP_ID, PLANNING_CENTER_SECRET",
      ?_, ?_, ?_, ?_, ?_⟩
    · exact run_main_of_credentials_error env net after_date _
        (by simp [get_credentials, ha, hb]; rfl)
    · rw [run_main_of_credentials_error env net after_date _
        (by simp [get_credentials, ha, hb]; rfl)]
      rfl
    · intro _; decide
    · intro _; decide
    · rw [run_main_of_credentials_error env net after_date _
        (by simp [get_credentials, ha, hb]; rfl),
        run_main_of_credentials_error env net' after_date _
        (by simp [get_credentials, ha, hb]; rfl)]
  · refine ⟨"Missing required environment variables: PLANNING_CENTER_APP_ID", ?_, ?_, ?_, ?_, ?_⟩
    · exact run_main_of_credentials_error env net after_date _
        (by simp [get_credentials, ha, hb]; rfl)
    · rw [run_main_of_credentials_error env net after_date _
        (by simp [get_credentials, ha, hb]; rfl)]
      rfl
    · intro _; decide
    · intro hs
      rw [hs] at hb
      simp [truthy] at hb
    · rw [run_main_of_credentials_error env net after_date _
        (by simp [get_credentials, ha, hb]; rfl),
        run_main_of_credentials_error env net' after_date _
        (by simp [get_credentials, ha, hb]; rfl)]
  · refine ⟨"Missing required environment variables: PLANNING_CENTER_SECRET", ?_, ?_, ?_, ?_, ?_⟩
    · exact run_main_of_credentials_error env net after_date _
        (by simp [get_credentials, ha, hb]; rfl)
    · rw [run_main_of_credentials_error env net after_date _
        (by simp [get_credentials, ha, hb]; rfl)]
      rfl
    · intro hs
      rw [hs] at ha
      simp [truthy] at ha
    · intro _; decide
    · rw [run_main_of_credentials_error env net after_date _
        (by simp [get_credentials, ha, hb]; rfl),
        run_main_of_credentials_error env net' after_date _
        (by simp [get_credentials, ha, hb]; rfl)]
  · exfalso
    rcases h with hnone | hnone
    · rw [hnone] at ha
      simp [truthy] at ha
    · rw [hnone] at hb
      simp [truthy] at hb

/-- Closed instance of C8 with both variables unset. -/
theorem c8_witness :
    ∃ msg : String,
      run_main (fun _ => none) (fun _ => .ok Json.null) "2024-01-01" = .fatal msg ∧
      exit_code (run_main (fun _ => none) (fun _ => .ok Json.null) "2024-01-01") = 1 ∧
      ((fun _ : String => (none : Option String)) APP_ID_ENV = none →
        mentions msg APP_ID_ENV = true) ∧
      ((fun _ : String => (none : Option String)) SECRET_ENV = none →
        mentions msg SECRET_ENV = true) ∧
      run_main (fun _ => none) (fun _ => .ok Json.null) "2024-01-01"
        = run_main (fun _ => none) (fun _ => .error "boom") "2024-01-01" :=
  c8_missing_credentials (fun _ => none) (Or.inl rfl)
    (fun _ => .ok Json.null) (fun _ => .error "boom") "2024-01-01"

/-- Closed instance of C3 on a one-slot, one-item schedule. -/
theorem c3_dense_renumbering_witness :
    ("9:00 AM", [(⟨Json.str "Opener", 1, Json.num 300⟩ : OutItem)])
      ∈ build_plan_schedule
        (⟨[("T1", "2024-01-07T09:00:00-06:00")], [("T1", [c1_record])]⟩ : PipelineState) ∧
    List.map (fun it => it.sequence) [(⟨Json.str "Opener", 1, Json.num 300⟩ : OutItem)]
      = List.range' 1 1 := by
  have hmem : ("9:00 AM", [(⟨Json.str "Opener", 1, Json.num 300⟩ : OutItem)])
      ∈ build_plan_schedule
        (⟨[("T1", "2024-01-07T09:00:00-06:00")], [("T1", [c1_record])]⟩ : PipelineState) := by
    have hb : build_plan_schedule
        (⟨[("T1", "2024-01-07T09:00:00-06:00")], [("T1", [c1_record])]⟩ : PipelineState)
        = [("9:00 AM", [(⟨Json.str "Opener", 1, Json.num 300⟩ : OutItem)])] := rfl
    rw [hb]
    exact List.mem_singleton_self _
  exact ⟨hmem, c3_dense_renumbering _ _ _ hmem⟩

/-- Closed instance of C9: a completed joining stage returns the state
with the same retained time-slot mapping. -/
theorem c9_witness :
    map_items_by_plan_time fetch_t1 (Json.obj [("data", Json.num 0)])
        (⟨[("T1", "t")], []⟩ : PipelineState)
      = .ok (⟨[("T1", "t")], []⟩ : PipelineState) ∧
    (⟨[("T1", "t")], []⟩ : PipelineState).plan_times = [("T1", "t")] := by
  refine ⟨rfl, ?_⟩
  exact c9_plan_times_immutable fetch_t1 (Json.obj [("data", Json.num 0)])
    (⟨[("T1", "t")], []⟩ : PipelineState) (⟨[("T1", "t")], []⟩ : PipelineState) rfl
